import Mathlib

/-!
Shallow embedding of the dry-cleaning invoicing store
(`src/unnamed/part_002`, a zustand store over a supabase backend) and of the
invoice form's submit pipeline (`src/unnamed/part_000`).

Conventions of the embedding:
* backend tables are lists of snake_case row records; fetches return the
  stored list; per-statement faults are injected explicitly as parameters
  (`Option String` = the backend error message, `none` = success), since the
  real backend's success/failure is external nondeterminism;
* JavaScript truthiness on strings/numbers/booleans (`x || d`) is modelled by
  explicit helpers (`strOr`, `intOr`, `boolOr`, `strOrNone`, `jsOr`);
* `new Date().toISOString()` is an explicit `now : String` parameter;
* each store operation returns the new store state, the new backend state, a
  trace of the backend statements it attempted (in order), and an outcome.
-/

/-- JS `s || d` for a nullable string column: `null`/`""` fall back to `d`. -/
def strOr (o : Option String) (d : String) : String :=
  match o with
  | some s => if s = "" then d else s
  | none => d

/-- JS `s || null` / `s || undefined` for a nullable string: `""` becomes `none`. -/
def strOrNone (o : Option String) : Option String :=
  match o with
  | some s => if s = "" then none else some s
  | none => none

/-- JS truthiness of a nullable string (`!x` is false exactly here). -/
def truthyStr (o : Option String) : Bool :=
  match o with
  | some s => s ≠ ""
  | none => false

/-- JS `n || d` for a nullable number column (`0`/`null` fall back to `d`). -/
def intOr (o : Option Int) (d : Int) : Int :=
  match o with
  | some v => if v = 0 then d else v
  | none => d

/-- JS `b || d` for a nullable boolean column. -/
def boolOr (o : Option Bool) (d : Bool) : Bool :=
  match o with
  | some b => if b then b else d
  | none => d

/-- JS `a || b` on two nullable strings, normalising `""` to `null`
(the shape of `existing.name || name || null`). -/
def jsOr (a b : Option String) : Option String :=
  match strOrNone a with
  | some s => some s
  | none => strOrNone b

/-- Invoice status enumeration (`'pending' | 'completed' | 'cancelled'`). -/
inductive Status where
  | pending
  | completed
  | cancelled
deriving DecidableEq, Repr

/-- Domain `Client` (camelCase, as in `src/lib/types.ts` plus the `updatedAt`
the store adds when mapping rows). -/
structure Client where
  id : String
  name : String
  phone : String
  address : String
  visitCount : Int
  rewardClaimed : Bool
  lastVisit : String
  createdAt : String
  updatedAt : String
deriving DecidableEq, Repr

/-- Domain `InvoiceItem` (camelCase). -/
structure InvoiceItem where
  id : String
  description : String
  quantity : Int
  unitPrice : Int
  totalPrice : Int
deriving DecidableEq, Repr

/-- Domain `Invoice` aggregate: embeds a `Client` snapshot and its items. -/
structure Invoice where
  id : String
  client : Client
  items : List InvoiceItem
  total : Int
  paymentMethod : String
  status : Status
  pickupDate : Option String
  pickupTime : Option String
  notes : Option String
  createdByName : Option String
  createdByPhone : Option String
  createdAt : String
  updatedAt : String
deriving DecidableEq, Repr

/-- A row of the `clients` table (snake_case persisted form). -/
structure ClientRow where
  id : String
  name : String
  phone : String
  address : Option String
  visit_count : Option Int
  reward_claimed : Option Bool
  last_visit : Option String
  created_at : String
  updated_at : String
deriving DecidableEq, Repr

/-- A row of the `invoices` table. -/
structure InvoiceRow where
  id : String
  client_id : String
  total : Int
  payment_method : String
  status : Status
  pickup_date : Option String
  pickup_time : Option String
  notes : Option String
  created_by_name : Option String
  created_by_phone : Option String
  created_at : String
  updated_at : String
deriving DecidableEq, Repr

/-- A row of the `invoice_items` table. -/
structure ItemRow where
  id : String
  invoice_id : String
  description : String
  quantity : Int
  unit_price : Int
  total_price : Int
  created_at : String
deriving DecidableEq, Repr

/-- A row of the append-only `audit_logs` table (the columns the store writes). -/
structure AuditRow where
  action : String
  entity_type : String
  entity_id : String
  actor_phone : Option String
  actor_name : Option String
deriving DecidableEq, Repr

/-- A row of the admin-provisioned `users` allowlist table. -/
structure UserRow where
  phone : String
  name : Option String
deriving DecidableEq, Repr

/-- The backend table set. -/
structure Backend where
  clients : List ClientRow
  invoices : List InvoiceRow
  invoice_items : List ItemRow
  audit_logs : List AuditRow
  users : List UserRow
deriving DecidableEq, Repr

/-- The store's in-memory state (the fields the modelled operations touch). -/
structure StoreState where
  invoices : List Invoice
  clients : List Client
  currentUserPhone : Option String
  currentUserName : Option String
  loading : Bool
  error : Option String
deriving DecidableEq, Repr

/-- Field mapping of a fetched client row to the domain `Client`, with the
store's JS-truthiness defaults (`address || ""`, `visit_count || 0`,
`reward_claimed || false`, `last_visit || new Date().toISOString()`). -/
def mapClientRow (now : String) (c : ClientRow) : Client :=
  { id := c.id
    name := c.name
    phone := c.phone
    address := strOr c.address ""
    visitCount := intOr c.visit_count 0
    rewardClaimed := boolOr c.reward_claimed false
    lastVisit := strOr c.last_visit now
    createdAt := c.created_at
    updatedAt := c.updated_at }

/-- Field mapping of a fetched invoice-item row to the domain `InvoiceItem`
(`parseFloat` of the text-stored decimals is the identity here). -/
def mapItemRow (it : ItemRow) : InvoiceItem :=
  { id := it.id
    description := it.description
    quantity := it.quantity
    unitPrice := it.unit_price
    totalPrice := it.total_price }

/-- Lookup in `new Map(rows.map(r => [r.id, r]))`: insertion order with later
duplicates overwriting earlier ones, so the LAST row with the key wins. -/
def jsMapLookup (k : String) (rows : List ClientRow) : Option ClientRow :=
  rows.foldl (fun acc r => if r.id = k then some r else acc) none

/-- The per-invoice item grouping (`itemsMap`): pushing each fetched item row
onto the list of its `invoice_id` preserves fetch order, i.e. it is a filter. -/
def itemsFor (invoiceId : String) (rows : List ItemRow) : List ItemRow :=
  rows.filter (fun it => it.invoice_id = invoiceId)

/-- Assembly of one `Invoice` aggregate from a header row: resolve the client
via the lookup (dropping the header — `null` — when absent), collect its item
rows, and field-map everything. -/
def buildInvoice (now : String) (clientRows : List ClientRow)
    (itemRows : List ItemRow) (h : InvoiceRow) : Option Invoice :=
  match jsMapLookup h.client_id clientRows with
  | none => none
  | some c =>
      some
        { id := h.id
          client := mapClientRow now c
          items := (itemsFor h.id itemRows).map mapItemRow
          total := h.total
          paymentMethod := h.payment_method
          status := h.status
          pickupDate := strOrNone h.pickup_date
          pickupTime := strOrNone h.pickup_time
          notes := strOrNone h.notes
          createdByName := strOrNone h.created_by_name
          createdByPhone := strOrNone h.created_by_phone
          createdAt := h.created_at
          updatedAt := h.updated_at }

/-- Model of `loadInvoices()` as a pure function of the fetched table contents: map
each header through `buildInvoice`, dropping headers whose client is missing
(`filter(Boolean)`). An empty header fetch publishes `[]`, which coincides
with the general path. -/
def loadInvoicesPure (db : Backend) (now : String) : List Invoice :=
  db.invoices.filterMap (buildInvoice now db.clients db.invoice_items)

/-- Model of `loadClients()` as a pure function of the fetched table contents. -/
def loadClientsPure (db : Backend) (now : String) : List Client :=
  db.clients.map (mapClientRow now)

/-- One attempted backend statement (or the local optimistic snapshot write),
recorded in operation order. -/
inductive Act where
  | insertInvoiceHeader : String → Act
  | insertInvoiceItems : String → Nat → Act
  | deleteInvoiceHeader : String → Act
  | updateClientCounter : String → Act
  | reloadInvoices : Act
  | reloadClients : Act
  | insertAuditLog : String → Act
  | patchInvoiceStatus : String → Act
  | localSnapshotUpdate : Act
deriving DecidableEq, Repr

/-- Outcome of a store operation: resolved, or the re-thrown error message. -/
inductive OpOutcome where
  | ok : OpOutcome
  | err : String → OpOutcome
deriving DecidableEq, Repr

/-- Injected success/failure of each backend statement `addInvoice` may issue
(`none` = the statement succeeds, `some msg` = it fails with `msg`).
`compDeleteFails` — the unchecked compensating delete leaves the row behind;
`auditInsertFails` — the swallowed audit insert writes nothing. -/
structure Faults where
  headerInsert : Option String
  itemsInsert : Option String
  compDeleteFails : Bool
  clientUpdate : Option String
  reloadInvoices : Option String
  reloadClients : Option String
  auditInsertFails : Bool
deriving DecidableEq, Repr

/-- Result of a write-pipeline operation: new store state, new backend state,
trace of attempted statements, and the surfaced outcome. -/
structure AddResult where
  store : StoreState
  db : Backend
  trace : List Act
  outcome : OpOutcome
deriving DecidableEq, Repr

/-- The caller-supplied invoice payload (`Omit<Invoice, 'createdAt' | 'updatedAt'>`). -/
structure InvoiceInput where
  id : String
  client : Client
  items : List InvoiceItem
  total : Int
  paymentMethod : String
  status : Status
  pickupDate : Option String
  pickupTime : Option String
  notes : Option String
deriving DecidableEq, Repr

/-- The three precondition checks at the top of `addInvoice`, in order. -/
def validateInvoice (inv : InvoiceInput) : Option String :=
  if inv.id = "" then some "Invoice ID is required"
  else if inv.client.id = "" then some "Client ID is required"
  else if inv.items.isEmpty then some "Invoice items are required"
  else none

/-- The item rows batched into `invoice_items` (`id`/`created_at` are
backend-assigned; `idGen` models the backend's id generation). -/
def mkItemRows (idGen : Nat → String) (invoiceId now : String) :
    Nat → List InvoiceItem → List ItemRow
  | _, [] => []
  | i, it :: rest =>
      { id := idGen i
        invoice_id := invoiceId
        description := it.description
        quantity := it.quantity
        unit_price := it.unitPrice
        total_price := it.totalPrice
        created_at := now } :: mkItemRows idGen invoiceId now (i + 1) rest

/-- Model of `addInvoice` from the store: validate, insert the header, batch-insert the
items (compensating with an unchecked header delete on item failure), update
the client visit counter (warn-only on failure), reload invoices then clients,
clear `loading`, then best-effort audit insert. Every thrown error is caught
at the boundary (error flag set, `loading` cleared) and re-thrown. -/
def addInvoice (st : StoreState) (db : Backend) (f : Faults)
    (idGen : Nat → String) (now : String) (inv : InvoiceInput) : AddResult :=
  let st0 : StoreState := { st with loading := true, error := none }
  match validateInvoice inv with
  | some msg =>
      { store := { st0 with error := some msg, loading := false }
        db := db, trace := [], outcome := .err msg }
  | none =>
      match f.headerInsert with
      | some m =>
          let msg := "Failed to create invoice: " ++ m
          { store := { st0 with error := some msg, loading := false }
            db := db, trace := [.insertInvoiceHeader inv.id], outcome := .err msg }
      | none =>
          let headerRow : InvoiceRow :=
            { id := inv.id
              client_id := inv.client.id
              total := inv.total
              payment_method := inv.paymentMethod
              status := inv.status
              pickup_date := strOrNone inv.pickupDate
              pickup_time := strOrNone inv.pickupTime
              notes := strOrNone inv.notes
              created_by_name := strOrNone st.currentUserName
              created_by_phone := strOrNone st.currentUserPhone
              created_at := now
              updated_at := now }
          let db1 : Backend := { db with invoices := db.invoices ++ [headerRow] }
          if inv.items.isEmpty then
            addInvoiceAfterItems st0 db1 f now inv
              [.insertInvoiceHeader inv.id]
          else
            match f.itemsInsert with
            | some m =>
                let db2 : Backend :=
                  if f.compDeleteFails then db1
                  else { db1 with invoices := db1.invoices.filter (fun r => r.id ≠ inv.id) }
                let msg := "Failed to create invoice items: " ++ m
                { store := { st0 with error := some msg, loading := false }
                  db := db2
                  trace := [.insertInvoiceHeader inv.id,
                            .insertInvoiceItems inv.id inv.items.length,
                            .deleteInvoiceHeader inv.id]
                  outcome := .err msg }
            | none =>
                let db2 : Backend :=
                  { db1 with invoice_items :=
                      db1.invoice_items ++ mkItemRows idGen inv.id now 0 inv.items }
                addInvoiceAfterItems st0 db2 f now inv
                  [.insertInvoiceHeader inv.id,
                   .insertInvoiceItems inv.id inv.items.length]
where
  /-- The tail of `addInvoice` after the items step committed: client counter
  update (warn-only), the two reloads, `loading := false`, audit insert. -/
  addInvoiceAfterItems (st0 : StoreState) (db2 : Backend) (f : Faults)
      (now : String) (inv : InvoiceInput) (tr : List Act) : AddResult :=
    let db3 : Backend :=
      match f.clientUpdate with
      | some _ => db2
      | none =>
          { db2 with clients :=
              db2.clients.map (fun c =>
                if c.id = inv.client.id then
                  { c with visit_count := some (inv.client.visitCount + 1)
                           last_visit := some now }
                else c) }
    let tr := tr ++ [.updateClientCounter inv.client.id]
    match f.reloadInvoices with
    | some m =>
        let msg := "Failed to load invoices: " ++ m
        { store := { st0 with error := some msg, loading := false }
          db := db3, trace := tr ++ [.reloadInvoices], outcome := .err msg }
    | none =>
        let st1 : StoreState := { st0 with invoices := loadInvoicesPure db3 now }
        match f.reloadClients with
        | some m =>
            let msg := "Failed to load clients: " ++ m
            { store := { st1 with error := some msg, loading := false }
              db := db3, trace := tr ++ [.reloadInvoices, .reloadClients]
              outcome := .err msg }
        | none =>
            let st2 : StoreState :=
              { st1 with clients := loadClientsPure db3 now, loading := false }
            let db4 : Backend :=
              if f.auditInsertFails then db3
              else
                { db3 with audit_logs :=
                    db3.audit_logs ++
                      [{ action := "create"
                         entity_type := "invoice"
                         entity_id := inv.id
                         actor_phone := st0.currentUserPhone
                         actor_name := st0.currentUserName }] }
            { store := st2, db := db4
              trace := tr ++ [.reloadInvoices, .reloadClients, .insertAuditLog "create"]
              outcome := .ok }

/-- Model of `updateInvoiceStatus` from the store: send the `{status, updated_at}`
patch; on success update the in-memory snapshot in place (only the matching
invoice's `status`/`updatedAt` change) and clear `loading`, then best-effort
audit insert with action `"status_update"`. No reload is performed. -/
def updateInvoiceStatus (st : StoreState) (db : Backend)
    (patchFault : Option String) (auditInsertFails : Bool)
    (now : String) (id : String) (status : Status) : AddResult :=
  let st0 : StoreState := { st with loading := true, error := none }
  match patchFault with
  | some m =>
      let msg := "Failed to update invoice status: " ++ m
      { store := { st0 with error := some msg, loading := false }
        db := db, trace := [.patchInvoiceStatus id], outcome := .err msg }
  | none =>
      let db1 : Backend :=
        { db with invoices :=
            db.invoices.map (fun r =>
              if r.id = id then { r with status := status, updated_at := now } else r) }
      let st1 : StoreState :=
        { st0 with
            invoices :=
              st0.invoices.map (fun inv =>
                if inv.id = id then { inv with status := status, updatedAt := now }
                else inv)
            loading := false }
      let db2 : Backend :=
        if auditInsertFails then db1
        else
          { db1 with audit_logs :=
              db1.audit_logs ++
                [{ action := "status_update"
                   entity_type := "invoice"
                   entity_id := id
                   actor_phone := st.currentUserPhone
                   actor_name := st.currentUserName }] }
      { store := st1, db := db2
        trace := [.patchInvoiceStatus id, .localSnapshotUpdate,
                  .insertAuditLog "status_update"]
        outcome := .ok }

/-- The two durable local-storage entries holding the session identity. -/
structure LocalStore where
  userPhone : Option String
  userName : Option String
deriving DecidableEq, Repr

/-- Outcome of `setCurrentUser`: resolved session, the account-not-found
toast-and-return, or the catch-all login-failed path. -/
inductive SessionOutcome where
  | success : SessionOutcome
  | accountNotFound : SessionOutcome
  | loginFailed : SessionOutcome
deriving DecidableEq, Repr

/-- Result of `setCurrentUser`: store state, local storage, and the outcome. -/
structure SessionResult where
  store : StoreState
  localStore : LocalStore
  outcome : SessionOutcome
deriving DecidableEq, Repr

/-- JS `String.prototype.trim()`: strip whitespace from both ends
(executable model of `phone.trim()`). -/
def jsTrim (s : String) : String :=
  String.mk (((s.data.dropWhile Char.isWhitespace).reverse.dropWhile
    Char.isWhitespace).reverse)

/-- Model of `.eq("phone", p).maybeSingle()`: one matching row yields that row; zero
rows yield `null`; several rows are an error, which the code only warns about,
so they also land in the `null` (not-found) path. -/
def maybeSingleUser (users : List UserRow) (p : String) : Option UserRow :=
  match users.filter (fun u => u.phone = p) with
  | [u] => some u
  | _ => none

/-- Model of `setCurrentUser(phone, name?)` from the store: trim the phone, look it up
in the `users` allowlist. Not found ⇒ toast and return with nothing changed.
Found ⇒ `resolvedName = existing.name || name || null`; write the phone (and,
only when truthy, the name) to local storage and set the in-memory session
fields. A thrown lookup failure is caught: nothing changes. -/
def setCurrentUser (st : StoreState) (ls : LocalStore) (users : List UserRow)
    (lookupThrows : Bool) (phone : String) (name : Option String) : SessionResult :=
  let normalized := jsTrim phone
  if lookupThrows then
    { store := st, localStore := ls, outcome := .loginFailed }
  else
    match maybeSingleUser users normalized with
    | none => { store := st, localStore := ls, outcome := .accountNotFound }
    | some u =>
        let resolvedName := jsOr u.name name
        { store := { st with currentUserPhone := some normalized
                             currentUserName := resolvedName }
          localStore :=
            { userPhone := some normalized
              userName := match resolvedName with
                          | some s => some s
                          | none => ls.userName }
          outcome := .success }

/-- One line of the invoice form's item field array. -/
structure FormItem where
  description : String
  quantity : Int
  unitPrice : Int
deriving DecidableEq, Repr

/-- The validated invoice-form data fed to the submit handler. -/
structure FormData where
  clientName : String
  clientPhone : String
  clientAddress : Option String
  items : List FormItem
  paymentMethod : String
  pickupDate : Option String
  pickupTime : Option String
  notes : Option String
  status : Status
deriving DecidableEq, Repr

/-- Model of `calculateTotal` from the invoice form: fold the running sum of
`quantity * unitPrice` over the item lines. -/
def calculateTotal (items : List FormItem) : Int :=
  items.foldl (fun sum item => sum + item.quantity * item.unitPrice) 0

/-- The submit handler's item construction: each line becomes an
`InvoiceItem` with a fresh id (`crypto.randomUUID()`, modelled by `idGen`
applied to the line index) and `totalPrice := quantity * unitPrice`. -/
def mkFormItems (idGen : Nat → String) : Nat → List FormItem → List InvoiceItem
  | _, [] => []
  | i, it :: rest =>
      { id := idGen i
        description := it.description
        quantity := it.quantity
        unitPrice := it.unitPrice
        totalPrice := it.quantity * it.unitPrice } :: mkFormItems idGen (i + 1) rest

/-- The invoice payload built by the form's `onSubmit` before it calls
`addInvoice`: `total := calculateTotal()` and items as above. -/
def mkInvoiceData (invoiceId : String) (client : Client) (d : FormData)
    (idGen : Nat → String) : InvoiceInput :=
  { id := invoiceId
    client := client
    items := mkFormItems idGen 0 d.items
    total := calculateTotal d.items
    paymentMethod := d.paymentMethod
    status := d.status
    pickupDate := strOrNone d.pickupDate
    pickupTime := strOrNone d.pickupTime
    notes := strOrNone d.notes }

/-- The filter predicate of `getPickupNotifications`: falsy `pickupDate` or
`pickupTime`, or a completed status, never match; otherwise the pickup date
must equal today's date and the `HH:MM` prefix of the pickup time must equal
the current clock time, both exactly. -/
def pickupMatch (currentDate currentTime : String) (inv : Invoice) : Bool :=
  if !truthyStr inv.pickupDate || !truthyStr inv.pickupTime
      || inv.status = Status.completed then
    false
  else
    (inv.pickupDate.getD "" = currentDate)
      && ((inv.pickupTime.getD "").take 5 = currentTime)

/-- Model of `getPickupNotifications()` over the current snapshot, with the wall clock
(`YYYY-MM-DD` date and zero-padded `HH:MM` time) passed explicitly. -/
def getPickupNotifications (invoices : List Invoice)
    (currentDate currentTime : String) : List Invoice :=
  invoices.filter (pickupMatch currentDate currentTime)

/-! ## Helper lemmas -/

/-- Each kept element of a `filterMap` plus each dropped element accounts for
the whole input list. -/
theorem length_filterMap_add_countP_isNone {α β : Type} (f : α → Option β)
    (l : List α) :
    (l.filterMap f).length + l.countP (fun x => (f x).isNone) = l.length := by
  induction l with
  | nil => simp
  | cons x t ih =>
      cases hx : f x with
      | none => simp [List.filterMap_cons, List.countP_cons, hx, ← ih]; omega
      | some b => simp [List.filterMap_cons, List.countP_cons, hx, ← ih]; omega

/-- A header builds to an aggregate exactly when its client lookup succeeds. -/
theorem buildInvoice_isSome_iff (now : String) (cs : List ClientRow)
    (its : List ItemRow) (h : InvoiceRow) :
    (buildInvoice now cs its h).isSome = (jsMapLookup h.client_id cs).isSome := by
  unfold buildInvoice
  cases jsMapLookup h.client_id cs <;> rfl

/-! ## C1 -/

/-- C1: for every set of fetched header, client and item rows, each header
whose `client_id` matches a fetched client row yields an `Invoice` in the
`loadInvoices` result embedding exactly the field-mapped client row; each
header with no matching client row builds to nothing, every invoice in the
result stems from a header with a matching client, and kept plus orphaned
headers account for all headers (so dropped = orphans). -/
theorem loadInvoices_join_correct (db : Backend) (now : String) :
    (∀ h ∈ db.invoices, ∀ c, jsMapLookup h.client_id db.clients = some c →
      ∃ inv ∈ loadInvoicesPure db now, inv.id = h.id ∧ inv.client = mapClientRow now c)
    ∧ (∀ h ∈ db.invoices, jsMapLookup h.client_id db.clients = none →
      buildInvoice now db.clients db.invoice_items h = none)
    ∧ (∀ inv ∈ loadInvoicesPure db now, ∃ h ∈ db.invoices,
      buildInvoice now db.clients db.invoice_items h = some inv ∧
      (jsMapLookup h.client_id db.clients).isSome = true)
    ∧ (loadInvoicesPure db now).length
        + db.invoices.countP (fun h => (jsMapLookup h.client_id db.clients).isNone)
        = db.invoices.length := by
  refine ⟨?_, ?_, ?_, ?_⟩
  · intro h hh c hc
    cases hbuild : buildInvoice now db.clients db.invoice_items h with
    | none => simp [buildInvoice, hc] at hbuild
    | some inv =>
        refine ⟨inv, List.mem_filterMap.mpr ⟨h, hh, hbuild⟩, ?_, ?_⟩
        · unfold buildInvoice at hbuild
          rw [hc] at hbuild
          cases hbuild
          rfl
        · unfold buildInvoice at hbuild
          rw [hc] at hbuild
          cases hbuild
          rfl
  · intro h _ hc
    simp [buildInvoice, hc]
  · intro inv hinv
    obtain ⟨h, hh, hbuild⟩ := List.mem_filterMap.mp hinv
    refine ⟨h, hh, hbuild, ?_⟩
    rw [← buildInvoice_isSome_iff now db.clients db.invoice_items h, hbuild]
    rfl
  · have key := length_filterMap_add_countP_isNone
      (buildInvoice now db.clients db.invoice_items) db.invoices
    have hfun : (fun h => (buildInvoice now db.clients db.invoice_items h).isNone)
        = (fun h : InvoiceRow => (jsMapLookup h.client_id db.clients).isNone) := by
      funext h
      unfold buildInvoice
      cases jsMapLookup h.client_id db.clients <;> rfl
    rw [hfun] at key
    exact key

/-- Concrete client row for the C1 witness. -/
def exClientC1 : ClientRow :=
  { id := "c1", name := "Jean", phone := "+250788000000", address := some "Kigali"
    visit_count := some 3, reward_claimed := some false
    last_visit := some "2024-01-01T00:00:00.000Z"
    created_at := "2024-01-01T00:00:00.000Z", updated_at := "2024-01-01T00:00:00.000Z" }

/-- Concrete matched header row for the C1 witness. -/
def exHdrC1 : InvoiceRow :=
  { id := "INV-1", client_id := "c1", total := 2000, payment_method := "cash"
    status := .pending, pickup_date := none, pickup_time := none, notes := none
    created_by_name := none, created_by_phone := none
    created_at := "2024-01-02T00:00:00.000Z", updated_at := "2024-01-02T00:00:00.000Z" }

/-- Concrete orphaned header row (no matching client) for the C1 witness. -/
def exOrphanC1 : InvoiceRow := { exHdrC1 with id := "INV-2", client_id := "ghost" }

/-- Concrete backend for the C1 witness: one matched and one orphaned header. -/
def exDbC1 : Backend :=
  { clients := [exClientC1], invoices := [exHdrC1, exOrphanC1]
    invoice_items := [], audit_logs := [], users := [] }

/-- C1 witness: on the concrete backend the matched header yields an invoice
embedding the field-mapped client row, and kept + orphaned headers account
for both headers. -/
theorem loadInvoices_join_correct_witness :
    (∃ inv ∈ loadInvoicesPure exDbC1 "T0",
      inv.id = exHdrC1.id ∧ inv.client = mapClientRow "T0" exClientC1)
    ∧ (loadInvoicesPure exDbC1 "T0").length
        + exDbC1.invoices.countP
            (fun h => (jsMapLookup h.client_id exDbC1.clients).isNone)
        = exDbC1.invoices.length := by
  constructor
  · exact (loadInvoices_join_correct exDbC1 "T0").1 exHdrC1 (by decide)
      exClientC1 (by decide)
  · exact (loadInvoices_join_correct exDbC1 "T0").2.2.2

/-! ## C5 -/

/-- A `jsMapLookup` hit is one of the fetched rows. -/
theorem jsMapLookup_mem (k : String) (rows : List ClientRow) (c : ClientRow) :
    jsMapLookup k rows = some c → c ∈ rows := by
  suffices h : ∀ acc : Option ClientRow,
      rows.foldl (fun a r => if r.id = k then some r else a) acc = some c →
      c ∈ rows ∨ acc = some c by
    intro hl
    rcases h none hl with hm | hnone
    · exact hm
    · cases hnone
  induction rows with
  | nil => intro acc h; right; exact h
  | cons r t ih =>
      intro acc h
      simp only [List.foldl_cons] at h
      rcases ih (if r.id = k then some r else acc) h with hm | hacc
      · left; exact List.mem_cons_of_mem r hm
      · by_cases hr : r.id = k
        · rw [if_pos hr] at hacc
          cases hacc
          left; exact List.mem_cons_self c t
        · rw [if_neg hr] at hacc
          right; exact hacc

/-- The client-row field mapping is clock-independent once `last_visit` is a
non-empty string. -/
theorem mapClientRow_clock_free (t1 t2 : String) (c : ClientRow)
    (h : truthyStr c.last_visit = true) :
    mapClientRow t1 c = mapClientRow t2 c := by
  unfold mapClientRow strOr
  cases hl : c.last_visit with
  | none => rw [hl] at h; simp [truthyStr] at h
  | some s =>
      rw [hl] at h
      simp only [truthyStr, ne_eq, decide_eq_true_eq] at h
      simp [h]

/-- Aggregate assembly is clock-independent under the same proviso. -/
theorem buildInvoice_clock_free (t1 t2 : String) (cs : List ClientRow)
    (its : List ItemRow)
    (hclients : ∀ c ∈ cs, truthyStr c.last_visit = true) (h : InvoiceRow) :
    buildInvoice t1 cs its h = buildInvoice t2 cs its h := by
  cases hj : jsMapLookup h.client_id cs with
  | none => simp [buildInvoice, hj]
  | some c =>
      simp [buildInvoice, hj,
        mapClientRow_clock_free t1 t2 c (hclients c (jsMapLookup_mem _ _ _ hj))]

/-- C5 (amended): two `loadInvoices` calls over the same backend tables give
element-wise equal snapshots PROVIDED every fetched client row has a truthy
(non-null, non-empty) `last_visit`; the clock only enters through the
`last_visit || new Date().toISOString()` fallback. -/
theorem loadInvoices_reload_idempotent (db : Backend) (t1 t2 : String)
    (hclients : ∀ c ∈ db.clients, truthyStr c.last_visit = true) :
    loadInvoicesPure db t1 = loadInvoicesPure db t2 := by
  unfold loadInvoicesPure
  induction db.invoices with
  | nil => rfl
  | cons x t ih =>
      rw [List.filterMap_cons, List.filterMap_cons,
        buildInvoice_clock_free t1 t2 db.clients db.invoice_items hclients x, ih]

/-- Client row with a null `last_visit` for the C5 counterexample. -/
def exClientC5 : ClientRow := { exClientC1 with last_visit := none }

/-- Backend for the C5 counterexample: one header joined to the null-
`last_visit` client. -/
def exDbC5 : Backend :=
  { clients := [exClientC5], invoices := [exHdrC1]
    invoice_items := [], audit_logs := [], users := [] }

/-- C5 counterexample: with a fetched client row whose `last_visit` is null,
two loads at different wall-clock instants produce snapshots that are NOT
element-wise equal (the embedded client's `lastVisit` differs), refuting the
claim as stated. -/
theorem loadInvoices_reload_not_idempotent :
    loadInvoicesPure exDbC5 "2024-01-01T10:00:00.000Z"
      ≠ loadInvoicesPure exDbC5 "2024-01-01T10:00:01.000Z" := by decide

/-- C5 witness: on a backend whose client rows all carry a truthy
`last_visit`, two loads at different instants agree. -/
theorem loadInvoices_reload_idempotent_witness :
    loadInvoicesPure exDbC1 "2024-01-01T10:00:00.000Z"
      = loadInvoicesPure exDbC1 "2024-01-01T10:00:01.000Z" :=
  loadInvoices_reload_idempotent exDbC1 _ _ (by decide)

/-! ## C3 -/

/-- Every item the submit handler builds carries
`totalPrice = quantity * unitPrice`. -/
theorem mkFormItems_totalPrice (idGen : Nat → String) (i : Nat)
    (l : List FormItem) :
    ∀ it ∈ mkFormItems idGen i l, it.totalPrice = it.quantity * it.unitPrice := by
  induction l generalizing i with
  | nil => intro it h; cases h
  | cons x t ih =>
      intro it h
      rcases List.mem_cons.mp h with h | h
      · subst h; rfl
      · exact ih (i + 1) it h

/-- Building form items preserves the per-line `quantity * unitPrice` view. -/
theorem mkFormItems_map_mul (idGen : Nat → String) (i : Nat) (l : List FormItem) :
    (mkFormItems idGen i l).map (fun it => it.quantity * it.unitPrice)
      = l.map (fun it => it.quantity * it.unitPrice) := by
  induction l generalizing i with
  | nil => rfl
  | cons x t ih => simp [mkFormItems, ih]

/-- Evaluation of `calculateTotal` as the sum of the per-line `quantity * unitPrice`. -/
theorem calculateTotal_eq_sum (l : List FormItem) :
    calculateTotal l = (l.map (fun it => it.quantity * it.unitPrice)).sum := by
  suffices h : ∀ init : Int,
      l.foldl (fun sum item => sum + item.quantity * item.unitPrice) init
        = init + (l.map (fun it => it.quantity * it.unitPrice)).sum by
    have := h 0
    simpa [calculateTotal] using this
  induction l with
  | nil => intro init; simp
  | cons x t ih =>
      intro init
      simp only [List.foldl_cons, List.map_cons, List.sum_cons, ih]
      ring

/-- C3: the invoice payload the form's submit handler feeds to `addInvoice`
has `total` equal to the sum over its items of `quantity × unitPrice`, every
item's persisted `totalPrice` equals its `quantity × unitPrice`, and the
store's own validation never inspects `total` (the invariant lives in the
caller, not the storage layer). -/
theorem create_pipeline_total_invariant (invoiceId : String) (client : Client)
    (d : FormData) (idGen : Nat → String) :
    (∀ it ∈ (mkInvoiceData invoiceId client d idGen).items,
      it.totalPrice = it.quantity * it.unitPrice)
    ∧ (mkInvoiceData invoiceId client d idGen).total
        = ((mkInvoiceData invoiceId client d idGen).items.map
            (fun it => it.quantity * it.unitPrice)).sum
    ∧ (∀ t : Int,
        validateInvoice { mkInvoiceData invoiceId client d idGen with total := t }
          = validateInvoice (mkInvoiceData invoiceId client d idGen)) := by
  refine ⟨mkFormItems_totalPrice idGen 0 d.items, ?_, ?_⟩
  · show calculateTotal d.items = _
    rw [calculateTotal_eq_sum]
    show _ = ((mkFormItems idGen 0 d.items).map (fun it => it.quantity * it.unitPrice)).sum
    rw [mkFormItems_map_mul]
  · intro t
    rfl

/-- Backend id generator stand-in for the witnesses. -/
def exIdGen : Nat → String := fun _ => "uuid"

/-- Concrete domain client for the C3 witness (the spec's scenario client). -/
def exClientC3 : Client :=
  { id := "c1", name := "Jean", phone := "+250788000000", address := ""
    visitCount := 0, rewardClaimed := false
    lastVisit := "2024-01-01T00:00:00.000Z"
    createdAt := "2024-01-01T00:00:00.000Z", updatedAt := "2024-01-01T00:00:00.000Z" }

/-- Concrete form data for the C3 witness: one line, `2 × 1000`. -/
def exFormC3 : FormData :=
  { clientName := "Jean", clientPhone := "+250788000000", clientAddress := none
    items := [{ description := "Shirt wash", quantity := 2, unitPrice := 1000 }]
    paymentMethod := "cash", pickupDate := none, pickupTime := none
    notes := none, status := .pending }

/-- The single item the C3 witness expects the submit handler to build. -/
def exItemC3 : InvoiceItem :=
  { id := "uuid", description := "Shirt wash", quantity := 2
    unitPrice := 1000, totalPrice := 2000 }

/-- C3 witness: on the spec's scenario (`quantity 2, unitPrice 1000`) the
built payload's total matches the item sum and the item carries
`totalPrice = 2 × 1000`. -/
theorem create_pipeline_total_invariant_witness :
    ((mkInvoiceData "INV-9" exClientC3 exFormC3 exIdGen).total
      = ((mkInvoiceData "INV-9" exClientC3 exFormC3 exIdGen).items.map
          (fun it => it.quantity * it.unitPrice)).sum)
    ∧ exItemC3.totalPrice = exItemC3.quantity * exItemC3.unitPrice := by
  refine ⟨(create_pipeline_total_invariant "INV-9" exClientC3 exFormC3 exIdGen).2.1, ?_⟩
  exact (create_pipeline_total_invariant "INV-9" exClientC3 exFormC3 exIdGen).1
    exItemC3 (by decide)

/-! ## C6 -/

/-- The store's precondition checks pass exactly on nonempty id, client id
and items; helper giving the failing message. -/
theorem validateInvoice_isSome_of_bad (inv : InvoiceInput)
    (h : inv.id = "" ∨ inv.client.id = "" ∨ inv.items = []) :
    ∃ m, validateInvoice inv = some m := by
  by_cases h1 : inv.id = ""
  · exact ⟨"Invoice ID is required", by simp [validateInvoice, h1]⟩
  · by_cases h2 : inv.client.id = ""
    · exact ⟨"Client ID is required", by simp [validateInvoice, h1, h2]⟩
    · have h3 : inv.items = [] := by tauto
      exact ⟨"Invoice items are required", by simp [validateInvoice, h1, h2, h3]⟩

/-- C6: an `addInvoice` call with an empty invoice id, an empty client id or
an empty item list fails with the validation error, issues no backend
statement (empty trace, backend untouched) and leaves the snapshots and
session fields unchanged; only `loading`/`error` move. -/
theorem addInvoice_validation_short_circuit (st : StoreState) (db : Backend)
    (f : Faults) (idGen : Nat → String) (now : String) (inv : InvoiceInput)
    (h : inv.id = "" ∨ inv.client.id = "" ∨ inv.items = []) :
    (addInvoice st db f idGen now inv).db = db
    ∧ (addInvoice st db f idGen now inv).trace = []
    ∧ (addInvoice st db f idGen now inv).store.invoices = st.invoices
    ∧ (addInvoice st db f idGen now inv).store.clients = st.clients
    ∧ (addInvoice st db f idGen now inv).store.currentUserPhone = st.currentUserPhone
    ∧ (addInvoice st db f idGen now inv).store.currentUserName = st.currentUserName
    ∧ (addInvoice st db f idGen now inv).store.loading = false
    ∧ (∃ m, (addInvoice st db f idGen now inv).outcome = .err m
        ∧ (addInvoice st db f idGen now inv).store.error = some m) := by
  obtain ⟨m, hm⟩ := validateInvoice_isSome_of_bad inv h
  refine ⟨?_, ?_, ?_, ?_, ?_, ?_, ?_, ⟨m, ?_, ?_⟩⟩ <;> simp [addInvoice, hm]

/-- Empty store state for witnesses. -/
def exStEmpty : StoreState :=
  { invoices := [], clients := [], currentUserPhone := some "+250788000001"
    currentUserName := some "Op", loading := false, error := none }

/-- Invoice payload with an empty id for the C6 witness. -/
def exBadInvC6 : InvoiceInput :=
  { id := "", client := exClientC3, items := [exItemC3], total := 2000
    paymentMethod := "cash", status := .pending
    pickupDate := none, pickupTime := none, notes := none }

/-- All-success fault assignment. -/
def exNoFaults : Faults :=
  { headerInsert := none, itemsInsert := none, compDeleteFails := false
    clientUpdate := none, reloadInvoices := none, reloadClients := none
    auditInsertFails := false }

/-- C6 witness: a concrete empty-id payload leaves the backend untouched and
issues no statement. -/
theorem addInvoice_validation_short_circuit_witness :
    (addInvoice exStEmpty exDbC1 exNoFaults exIdGen "T0" exBadInvC6).db = exDbC1
    ∧ (addInvoice exStEmpty exDbC1 exNoFaults exIdGen "T0" exBadInvC6).trace = [] := by
  have h := addInvoice_validation_short_circuit exStEmpty exDbC1 exNoFaults exIdGen
    "T0" exBadInvC6 (Or.inl rfl)
  exact ⟨h.1, h.2.1⟩

/-! ## C2 -/

/-- The precondition checks pass on nonempty id, client id and items. -/
theorem validateInvoice_eq_none (inv : InvoiceInput)
    (h1 : inv.id ≠ "") (h2 : inv.client.id ≠ "") (h3 : inv.items ≠ []) :
    validateInvoice inv = none := by
  simp [validateInvoice, h1, h2, h3]

/-- C2: when the header insert succeeds and the item batch insert fails (and
the unchecked compensating delete goes through), `addInvoice` attempts exactly
header-insert, item-insert, header-delete — so no client-counter update, no
reload and no audit insert — the header row is gone from the backend, the
other tables are untouched, and the surfaced error is the wrapped item-insert
error. -/
theorem addInvoice_item_failure_compensates (st : StoreState) (db : Backend)
    (idGen : Nat → String) (now : String) (inv : InvoiceInput) (msg : String)
    (cu ri rc : Option String) (af : Bool)
    (h1 : inv.id ≠ "") (h2 : inv.client.id ≠ "") (h3 : inv.items ≠ []) :
    (addInvoice st db
        { headerInsert := none, itemsInsert := some msg, compDeleteFails := false
          clientUpdate := cu, reloadInvoices := ri, reloadClients := rc
          auditInsertFails := af } idGen now inv).trace
      = [.insertInvoiceHeader inv.id, .insertInvoiceItems inv.id inv.items.length,
         .deleteInvoiceHeader inv.id]
    ∧ (∀ row ∈ (addInvoice st db
        { headerInsert := none, itemsInsert := some msg, compDeleteFails := false
          clientUpdate := cu, reloadInvoices := ri, reloadClients := rc
          auditInsertFails := af } idGen now inv).db.invoices, row.id ≠ inv.id)
    ∧ (addInvoice st db
        { headerInsert := none, itemsInsert := some msg, compDeleteFails := false
          clientUpdate := cu, reloadInvoices := ri, reloadClients := rc
          auditInsertFails := af } idGen now inv).db.invoice_items = db.invoice_items
    ∧ (addInvoice st db
        { headerInsert := none, itemsInsert := some msg, compDeleteFails := false
          clientUpdate := cu, reloadInvoices := ri, reloadClients := rc
          auditInsertFails := af } idGen now inv).db.clients = db.clients
    ∧ (addInvoice st db
        { headerInsert := none, itemsInsert := some msg, compDeleteFails := false
          clientUpdate := cu, reloadInvoices := ri, reloadClients := rc
          auditInsertFails := af } idGen now inv).db.audit_logs = db.audit_logs
    ∧ (addInvoice st db
        { headerInsert := none, itemsInsert := some msg, compDeleteFails := false
          clientUpdate := cu, reloadInvoices := ri, reloadClients := rc
          auditInsertFails := af } idGen now inv).outcome
      = .err ("Failed to create invoice items: " ++ msg)
    ∧ (addInvoice st db
        { headerInsert := none, itemsInsert := some msg, compDeleteFails := false
          clientUpdate := cu, reloadInvoices := ri, reloadClients := rc
          auditInsertFails := af } idGen now inv).store.error
      = some ("Failed to create invoice items: " ++ msg) := by
  have hval := validateInvoice_eq_none inv h1 h2 h3
  have hemp : inv.items.isEmpty = false := by
    cases hi : inv.items with
    | nil => exact absurd hi h3
    | cons a l => rfl
  refine ⟨?_, ?_, ?_, ?_, ?_, ?_, ?_⟩ <;>
    simp only [addInvoice, hval, hemp] <;>
    simp [List.mem_filter]

/-- Well-formed invoice payload shared by the write-pipeline witnesses. -/
def exGoodInv : InvoiceInput :=
  { id := "INV-9", client := exClientC3, items := [exItemC3], total := 2000
    paymentMethod := "cash", status := .pending
    pickupDate := none, pickupTime := none, notes := none }

/-- C2 witness: on concrete inputs the failing-items run traces exactly
insert-header, insert-items, delete-header and surfaces the wrapped
item-insert error. -/
theorem addInvoice_item_failure_compensates_witness :
    (addInvoice exStEmpty exDbC1
        { headerInsert := none, itemsInsert := some "duplicate key"
          compDeleteFails := false, clientUpdate := none, reloadInvoices := none
          reloadClients := none, auditInsertFails := false } exIdGen "T0" exGoodInv).trace
      = [.insertInvoiceHeader "INV-9", .insertInvoiceItems "INV-9" 1,
         .deleteInvoiceHeader "INV-9"]
    ∧ (addInvoice exStEmpty exDbC1
        { headerInsert := none, itemsInsert := some "duplicate key"
          compDeleteFails := false, clientUpdate := none, reloadInvoices := none
          reloadClients := none, auditInsertFails := false } exIdGen "T0" exGoodInv).outcome
      = .err ("Failed to create invoice items: " ++ "duplicate key") := by
  have h := addInvoice_item_failure_compensates exStEmpty exDbC1 exIdGen "T0"
    exGoodInv "duplicate key" none none none false
    (by decide) (by decide) (by decide)
  exact ⟨h.1, h.2.2.2.2.2.1⟩

/-! ## C7 -/

/-- C7: when header and items commit but the client counter update fails,
`addInvoice` still resolves successfully — the counter failure changes
nothing in the clients table, the invoice is kept (no rollback), both reloads
run and the audit insert is still attempted, the error flag stays clear. -/
theorem addInvoice_counter_failure_swallowed (st : StoreState) (db : Backend)
    (idGen : Nat → String) (now : String) (inv : InvoiceInput) (m : String)
    (af : Bool)
    (h1 : inv.id ≠ "") (h2 : inv.client.id ≠ "") (h3 : inv.items ≠ []) :
    (addInvoice st db
        { headerInsert := none, itemsInsert := none, compDeleteFails := false
          clientUpdate := some m, reloadInvoices := none, reloadClients := none
          auditInsertFails := af } idGen now inv).outcome = .ok
    ∧ (addInvoice st db
        { headerInsert := none, itemsInsert := none, compDeleteFails := false
          clientUpdate := some m, reloadInvoices := none, reloadClients := none
          auditInsertFails := af } idGen now inv).store.error = none
    ∧ (addInvoice st db
        { headerInsert := none, itemsInsert := none, compDeleteFails := false
          clientUpdate := some m, reloadInvoices := none, reloadClients := none
          auditInsertFails := af } idGen now inv).store.loading = false
    ∧ (addInvoice st db
        { headerInsert := none, itemsInsert := none, compDeleteFails := false
          clientUpdate := some m, reloadInvoices := none, reloadClients := none
          auditInsertFails := af } idGen now inv).trace
      = [.insertInvoiceHeader inv.id, .insertInvoiceItems inv.id inv.items.length,
         .updateClientCounter inv.client.id, .reloadInvoices, .reloadClients,
         .insertAuditLog "create"]
    ∧ (∃ row ∈ (addInvoice st db
        { headerInsert := none, itemsInsert := none, compDeleteFails := false
          clientUpdate := some m, reloadInvoices := none, reloadClients := none
          auditInsertFails := af } idGen now inv).db.invoices, row.id = inv.id)
    ∧ (addInvoice st db
        { headerInsert := none, itemsInsert := none, compDeleteFails := false
          clientUpdate := some m, reloadInvoices := none, reloadClients := none
          auditInsertFails := af } idGen now inv).db.clients = db.clients := by
  have hval := validateInvoice_eq_none inv h1 h2 h3
  have hemp : inv.items.isEmpty = false := by
    cases hi : inv.items with
    | nil => exact absurd hi h3
    | cons a l => rfl
  refine ⟨?_, ?_, ?_, ?_, ?_, ?_⟩ <;>
    cases af <;>
    simp only [addInvoice, addInvoice.addInvoiceAfterItems, hval, hemp] <;>
    simp <;>
    exact ⟨_, Or.inr rfl, rfl⟩

/-- C7 witness: concrete run with a failing counter update still resolves,
keeps the invoice, and runs the reloads. -/
theorem addInvoice_counter_failure_swallowed_witness :
    (addInvoice exStEmpty exDbC1
        { headerInsert := none, itemsInsert := none, compDeleteFails := false
          clientUpdate := some "network error", reloadInvoices := none
          reloadClients := none, auditInsertFails := false }
        exIdGen "T0" exGoodInv).outcome = .ok
    ∧ (addInvoice exStEmpty exDbC1
        { headerInsert := none, itemsInsert := none, compDeleteFails := false
          clientUpdate := some "network error", reloadInvoices := none
          reloadClients := none, auditInsertFails := false }
        exIdGen "T0" exGoodInv).trace
      = [.insertInvoiceHeader "INV-9", .insertInvoiceItems "INV-9" 1,
         .updateClientCounter "c1", .reloadInvoices, .reloadClients,
         .insertAuditLog "create"] := by
  have h := addInvoice_counter_failure_swallowed exStEmpty exDbC1 exIdGen "T0"
    exGoodInv "network error" false (by decide) (by decide) (by decide)
  exact ⟨h.1, h.2.2.2.1⟩

/-! ## C4 -/

/-- Reading `n || 0` on a present numeric column gives the value itself. -/
theorem intOr_some_zero (v : Int) : intOr (some v) 0 = v := by
  by_cases h : v = 0 <;> simp [intOr, h]

/-- Reading `s || now` when the column holds exactly `now` gives `now` either way. -/
theorem strOr_some_self (s : String) : strOr (some s) s = s := by
  by_cases h : s = "" <;> simp [strOr, h]

/-- Effect of the counter-update statement on the reloaded client list: every
reloaded client with the target id carries the bumped count and the fresh
`last_visit`, and if a row with the target id was fetched, such a client is
present. -/
theorem counter_bump_clients (l : List ClientRow) (cid : String) (n : Int)
    (now : String) :
    (∀ c ∈ (l.map (fun c =>
          if c.id = cid then
            { c with visit_count := some (n + 1), last_visit := some now }
          else c)).map (mapClientRow now),
        c.id = cid → c.visitCount = n + 1 ∧ c.lastVisit = now)
    ∧ ((∃ c0 ∈ l, c0.id = cid) →
        ∃ c ∈ (l.map (fun c =>
            if c.id = cid then
              { c with visit_count := some (n + 1), last_visit := some now }
            else c)).map (mapClientRow now),
          c.id = cid ∧ c.visitCount = n + 1 ∧ c.lastVisit = now) := by
  constructor
  · intro c hc hid
    obtain ⟨r1, hr1, hmap⟩ := List.mem_map.mp hc
    obtain ⟨c0, _, hupd⟩ := List.mem_map.mp hr1
    by_cases h0 : c0.id = cid
    · rw [if_pos h0] at hupd
      subst hupd
      subst hmap
      exact ⟨intOr_some_zero (n + 1), strOr_some_self now⟩
    · rw [if_neg h0] at hupd
      subst hupd
      subst hmap
      exact absurd hid h0
  · rintro ⟨c0, hc0, h0⟩
    refine ⟨mapClientRow now
      { c0 with visit_count := some (n + 1), last_visit := some now }, ?_, h0, ?_, ?_⟩
    · exact List.mem_map.mpr
        ⟨{ c0 with visit_count := some (n + 1), last_visit := some now },
          List.mem_map.mpr ⟨c0, hc0, by rw [if_pos h0]⟩, rfl⟩
    · exact intOr_some_zero (n + 1)
    · exact strOr_some_self now

/-- C4: on an all-successful create for a client whose snapshot `visitCount`
is `N`, the post-reload client snapshot shows that client with
`visitCount = N + 1` and `lastVisit` equal to the operation's timestamp (the
counter is bumped from the caller's snapshot value, not from the stored row). -/
theorem addInvoice_visit_counter (st : StoreState) (db : Backend)
    (idGen : Nat → String) (now : String) (inv : InvoiceInput) (af : Bool)
    (h1 : inv.id ≠ "") (h2 : inv.client.id ≠ "") (h3 : inv.items ≠ [])
    (hex : ∃ c0 ∈ db.clients, c0.id = inv.client.id) :
    (∃ c ∈ (addInvoice st db
        { headerInsert := none, itemsInsert := none, compDeleteFails := false
          clientUpdate := none, reloadInvoices := none, reloadClients := none
          auditInsertFails := af } idGen now inv).store.clients,
      c.id = inv.client.id ∧ c.visitCount = inv.client.visitCount + 1
        ∧ c.lastVisit = now)
    ∧ (∀ c ∈ (addInvoice st db
        { headerInsert := none, itemsInsert := none, compDeleteFails := false
          clientUpdate := none, reloadInvoices := none, reloadClients := none
          auditInsertFails := af } idGen now inv).store.clients,
      c.id = inv.client.id → c.visitCount = inv.client.visitCount + 1
        ∧ c.lastVisit = now) := by
  have hval := validateInvoice_eq_none inv h1 h2 h3
  have hemp : inv.items.isEmpty = false := by
    cases hi : inv.items with
    | nil => exact absurd hi h3
    | cons a l => rfl
  constructor
  · simp only [addInvoice, addInvoice.addInvoiceAfterItems, hval, hemp,
      loadClientsPure]
    exact (counter_bump_clients db.clients inv.client.id inv.client.visitCount
      now).2 hex
  · simp only [addInvoice, addInvoice.addInvoiceAfterItems, hval, hemp,
      loadClientsPure]
    exact (counter_bump_clients db.clients inv.client.id inv.client.visitCount
      now).1

/-- C4 witness: concrete all-successful create for the snapshot client with
`visitCount = 0` leaves a reloaded client with `visitCount = 1`. -/
theorem addInvoice_visit_counter_witness :
    ∃ c ∈ (addInvoice exStEmpty exDbC1
        { headerInsert := none, itemsInsert := none, compDeleteFails := false
          clientUpdate := none, reloadInvoices := none, reloadClients := none
          auditInsertFails := false } exIdGen "T0" exGoodInv).store.clients,
      c.id = "c1" ∧ c.visitCount = 0 + 1 ∧ c.lastVisit = "T0" :=
  (addInvoice_visit_counter exStEmpty exDbC1 exIdGen "T0" exGoodInv false
    (by decide) (by decide) (by decide) ⟨exClientC1, by decide, by decide⟩).1

/-! ## C8 -/

/-- C8: a successful `updateInvoiceStatus` run issues exactly the status
patch, then the immediate in-memory snapshot update, then the
`"status_update"` audit append — no reload at all; the patch and the snapshot
update change only the matching invoice's `status`/`updatedAt` (non-matching
entries pass through unchanged, in both backend and snapshot), and the audit
row lands with action `"status_update"`. -/
theorem updateInvoiceStatus_optimistic (st : StoreState) (db : Backend)
    (now : String) (id : String) (status : Status) :
    (updateInvoiceStatus st db none false now id status).trace
      = [.patchInvoiceStatus id, .localSnapshotUpdate,
         .insertAuditLog "status_update"]
    ∧ Act.reloadInvoices ∉ (updateInvoiceStatus st db none false now id status).trace
    ∧ Act.reloadClients ∉ (updateInvoiceStatus st db none false now id status).trace
    ∧ (updateInvoiceStatus st db none false now id status).store.invoices.length
      = st.invoices.length
    ∧ (∀ inv ∈ st.invoices, inv.id ≠ id →
        inv ∈ (updateInvoiceStatus st db none false now id status).store.invoices)
    ∧ (∀ inv ∈ st.invoices, inv.id = id →
        { inv with status := status, updatedAt := now }
          ∈ (updateInvoiceStatus st db none false now id status).store.invoices)
    ∧ (∀ row ∈ db.invoices, row.id ≠ id →
        row ∈ (updateInvoiceStatus st db none false now id status).db.invoices)
    ∧ (∀ row ∈ db.invoices, row.id = id →
        { row with status := status, updated_at := now }
          ∈ (updateInvoiceStatus st db none false now id status).db.invoices)
    ∧ (updateInvoiceStatus st db none false now id status).db.audit_logs
      = db.audit_logs ++
          [{ action := "status_update", entity_type := "invoice", entity_id := id
             actor_phone := st.currentUserPhone, actor_name := st.currentUserName }]
    ∧ (updateInvoiceStatus st db none false now id status).outcome = .ok
    ∧ (updateInvoiceStatus st db none false now id status).store.error = none
    ∧ (updateInvoiceStatus st db none false now id status).store.loading = false := by
  refine ⟨rfl, by simp [updateInvoiceStatus], by simp [updateInvoiceStatus],
    ?_, ?_, ?_, ?_, ?_, rfl, rfl, rfl, rfl⟩
  · simp [updateInvoiceStatus]
  · intro inv hm hne
    simp only [updateInvoiceStatus]
    exact List.mem_map.mpr ⟨inv, hm, by rw [if_neg hne]⟩
  · intro inv hm he
    simp only [updateInvoiceStatus]
    exact List.mem_map.mpr ⟨inv, hm, by rw [if_pos he]⟩
  · intro row hm hne
    simp only [updateInvoiceStatus]
    exact List.mem_map.mpr ⟨row, hm, by rw [if_neg hne]⟩
  · intro row hm he
    simp only [updateInvoiceStatus]
    exact List.mem_map.mpr ⟨row, hm, by rw [if_pos he]⟩

/-- Pending concrete invoice for the C8/C10 witnesses. -/
def exInvPending : Invoice :=
  { id := "INV-1", client := exClientC3, items := [exItemC3], total := 2000
    paymentMethod := "cash", status := .pending
    pickupDate := some "2026-10-12", pickupTime := some "09:30", notes := none
    createdByName := none, createdByPhone := none
    createdAt := "2026-10-10T00:00:00.000Z", updatedAt := "2026-10-10T00:00:00.000Z" }

/-- Store holding that one pending invoice. -/
def exStC8 : StoreState := { exStEmpty with invoices := [exInvPending] }

/-- C8 witness: marking the pending invoice completed puts the patched copy
in the snapshot immediately, with the exact three-step trace. -/
theorem updateInvoiceStatus_optimistic_witness :
    (updateInvoiceStatus exStC8 exDbC1 none false "T1" "INV-1" .completed).trace
      = [.patchInvoiceStatus "INV-1", .localSnapshotUpdate,
         .insertAuditLog "status_update"]
    ∧ { exInvPending with status := Status.completed, updatedAt := "T1" }
        ∈ (updateInvoiceStatus exStC8 exDbC1 none false "T1" "INV-1" .completed).store.invoices := by
  have h := updateInvoiceStatus_optimistic exStC8 exDbC1 "T1" "INV-1" .completed
  exact ⟨h.1, h.2.2.2.2.2.1 exInvPending (by decide) (by decide)⟩

/-! ## C9 -/

/-- C9 (amended): if the `users` lookup misses, `setCurrentUser` signals
account-not-found and changes neither the in-memory session fields nor the
durable entries. If the lookup hits, the in-memory fields receive the trimmed
phone and the resolved name (`existing.name || name || null`, so a non-empty
stored name takes precedence over any caller-supplied name); the phone is
always persisted durably, while the name is persisted only when the resolved
name is non-null — a null resolved name leaves the previous durable name
untouched. -/
theorem setCurrentUser_contract (st : StoreState) (ls : LocalStore)
    (users : List UserRow) (phone : String) (name : Option String) :
    (maybeSingleUser users (jsTrim phone) = none →
      setCurrentUser st ls users false phone name
        = { store := st, localStore := ls, outcome := .accountNotFound })
    ∧ (∀ u, maybeSingleUser users (jsTrim phone) = some u →
        (setCurrentUser st ls users false phone name).outcome = .success
        ∧ (setCurrentUser st ls users false phone name).store.currentUserPhone
            = some (jsTrim phone)
        ∧ (setCurrentUser st ls users false phone name).store.currentUserName
            = jsOr u.name name
        ∧ (setCurrentUser st ls users false phone name).localStore.userPhone
            = some (jsTrim phone)
        ∧ (∀ s, jsOr u.name name = some s →
            (setCurrentUser st ls users false phone name).localStore.userName
              = some s)
        ∧ (jsOr u.name name = none →
            (setCurrentUser st ls users false phone name).localStore.userName
              = ls.userName)
        ∧ (∀ s, u.name = some s → s ≠ "" → jsOr u.name name = some s)) := by
  constructor
  · intro hmiss
    simp [setCurrentUser, hmiss]
  · intro u hhit
    refine ⟨?_, ?_, ?_, ?_, ?_, ?_, ?_⟩
    · simp [setCurrentUser, hhit]
    · simp [setCurrentUser, hhit]
    · simp [setCurrentUser, hhit]
    · simp [setCurrentUser, hhit]
    · intro s hs
      simp [setCurrentUser, hhit, hs]
    · intro hs
      simp [setCurrentUser, hhit, hs]
    · intro s hs hne
      simp [jsOr, strOrNone, hs, hne]

/-- Users table with one row whose stored name is null, for the C9
counterexample. -/
def exUsersC9 : List UserRow := [{ phone := "+250788000001", name := none }]

/-- Durable storage still holding a previous user's name, for the C9
counterexample. -/
def exLsC9 : LocalStore := { userPhone := none, userName := some "Old" }

/-- C9 counterexample: a `users` row for the phone exists, yet after the call
the resolved name (null) is NOT what durable storage holds — the stale "Old"
entry survives while the in-memory name is null, refuting the claim that the
resolved name is written to durable local storage whenever a row exists. -/
theorem setCurrentUser_name_not_persisted :
    (setCurrentUser exStEmpty exLsC9 exUsersC9 false "+250788000001" none).outcome
      = .success
    ∧ (setCurrentUser exStEmpty exLsC9 exUsersC9 false "+250788000001" none).store.currentUserName
      = none
    ∧ (setCurrentUser exStEmpty exLsC9 exUsersC9 false "+250788000001" none).localStore.userName
      = some "Old" := by
  refine ⟨?_, ?_, ?_⟩ <;> rfl

/-- C9 witness: a miss leaves everything untouched with the not-found signal,
and a hit with a non-empty stored name resolves to the stored name over the
caller-supplied one and persists phone and name. -/
theorem setCurrentUser_contract_witness :
    setCurrentUser exStEmpty exLsC9 exUsersC9 false "+250788000099" (some "Impostor")
      = { store := exStEmpty, localStore := exLsC9, outcome := .accountNotFound }
    ∧ (setCurrentUser exStEmpty exLsC9
        [{ phone := "+250788000001", name := some "Alice" }] false
        " +250788000001 " (some "Impostor")).store.currentUserName = some "Alice"
    ∧ (setCurrentUser exStEmpty exLsC9
        [{ phone := "+250788000001", name := some "Alice" }] false
        " +250788000001 " (some "Impostor")).localStore.userName = some "Alice" := by
  have h1 := (setCurrentUser_contract exStEmpty exLsC9 exUsersC9
    "+250788000099" (some "Impostor")).1 (by decide)
  have h2 := (setCurrentUser_contract exStEmpty exLsC9
    [{ phone := "+250788000001", name := some "Alice" }]
    " +250788000001 " (some "Impostor")).2
    { phone := "+250788000001", name := some "Alice" } (by decide)
  refine ⟨h1, ?_, ?_⟩
  · rw [h2.2.2.1]
    exact h2.2.2.2.2.2.2 "Alice" rfl (by decide)
  · exact h2.2.2.2.2.1 "Alice" (h2.2.2.2.2.2.2 "Alice" rfl (by decide))

/-! ## C10 -/

/-- C10: with a non-empty current date and a non-empty `HH:MM` clock string,
the pickup notifications are exactly the snapshot invoices whose `pickupDate`
equals today, whose `pickupTime` has `HH:MM` prefix equal to the current
minute, and whose status is not `completed` — so cancelled invoices with a
matching slot are included, and a given invoice matches in exactly that one
minute. -/
theorem getPickupNotifications_exact (invs : List Invoice)
    (currentDate currentTime : String) (inv : Invoice)
    (hd : currentDate ≠ "") (ht : currentTime ≠ "") :
    inv ∈ getPickupNotifications invs currentDate currentTime ↔
      inv ∈ invs ∧ inv.pickupDate = some currentDate
        ∧ (∃ t, inv.pickupTime = some t ∧ t.take 5 = currentTime)
        ∧ inv.status ≠ .completed := by
  unfold getPickupNotifications
  rw [List.mem_filter]
  constructor
  · rintro ⟨hm, hp⟩
    unfold pickupMatch at hp
    cases hpd : inv.pickupDate with
    | none => rw [hpd] at hp; simp [truthyStr] at hp
    | some pd =>
        cases hpt : inv.pickupTime with
        | none => rw [hpd, hpt] at hp; simp [truthyStr] at hp
        | some pt =>
            rw [hpd, hpt] at hp
            by_cases hs : inv.status = Status.completed
            · simp [truthyStr, hs] at hp
            · by_cases hpd0 : pd = ""
              · simp [truthyStr, hpd0] at hp
              · by_cases hpt0 : pt = ""
                · simp [truthyStr, hpt0] at hp
                · simp only [truthyStr, hs, hpd0, hpt0, Option.getD_some,
                    if_false, decide_eq_true_eq, Bool.and_eq_true,
                    Bool.or_eq_true, Bool.not_eq_true] at hp
                  rcases hp with hp
                  refine ⟨hm, ?_, ⟨pt, rfl, ?_⟩, hs⟩
                  · simp_all
                  · simp_all
  · rintro ⟨hm, hpd, ⟨t, hpt, htake⟩, hs⟩
    refine ⟨hm, ?_⟩
    unfold pickupMatch
    rw [hpd, hpt]
    have hpd0 : currentDate ≠ "" := hd
    have hpt0 : t ≠ "" := by
      intro h0
      rw [h0] at htake
      exact ht htake.symm
    simp [truthyStr, hs, hpd0, hpt0, htake]

/-- Cancelled invoice with today's pickup slot, for the C10 witness. -/
def exInvCancelled : Invoice := { exInvPending with id := "INV-3", status := .cancelled }

/-- C10 witness: at exactly `2026-10-12 09:30` the cancelled invoice with that
pickup slot IS notified, and one minute later it is not. -/
theorem getPickupNotifications_exact_witness :
    exInvCancelled ∈ getPickupNotifications [exInvCancelled] "2026-10-12" "09:30"
    ∧ exInvCancelled ∉ getPickupNotifications [exInvCancelled] "2026-10-12" "09:31" := by
  constructor
  · exact (getPickupNotifications_exact [exInvCancelled] "2026-10-12" "09:30"
      exInvCancelled (by decide) (by decide)).mpr
      ⟨by decide, by decide, ⟨"09:30", by decide, by decide⟩, by decide⟩
  · intro hmem
    have h := (getPickupNotifications_exact [exInvCancelled] "2026-10-12" "09:31"
      exInvCancelled (by decide) (by decide)).mp hmem
    rcases h.2.2.1 with ⟨t, ht1, ht2⟩
    rw [show exInvCancelled.pickupTime = some "09:30" from rfl] at ht1
    cases ht1
    exact absurd ht2 (by decide)
